import Mathlib

/-!
Verification development for the pointcloud-based occupancy grid map node
(`pointcloud_based_occupancy_grid_map_node.cpp`).

The orchestrator callback `onPointcloudWithObstacleAndRaw`, the message
conversion `OccupancyGridMapToMsgPtr` and the node constructor are embedded
directly from the source file.  The collaborators that the source file only
calls (the grid data structure, the raycaster, the Bayesian fuser, the cost
translation table, and the pointcloud utility functions) are not part of the
excerpt; each of those is modelled from the specification and carries a doc
comment saying so.  External services (the transform lookup) are modelled as
per-cycle inputs: the cycle receives the results the service would return.

Machine floats are embedded as rationals; byte-valued cell confidences are
`Fin 256`; fallible collaborator calls return `Option`.
-/

namespace occupancy_grid_map

/-- A 3-D point of a point cloud, coordinates embedded as rationals. -/
structure Point3 where
  x : ℚ
  y : ℚ
  z : ℚ
deriving DecidableEq

/-- A point cloud is embedded as the list of its points. -/
abbrev PointCloud2 := List Point3

/-- A pose: the position part, which is all the node consumes.
Orientation is not read anywhere in the embedded code paths. -/
structure Pose where
  x : ℚ
  y : ℚ
  z : ℚ
deriving DecidableEq

/-- Modelled from the spec: the internal confidence byte representing a
free cell in the single-frame grid (spec section 3, cell state `Free`). -/
def FREE_SPACE : Fin 256 := ⟨0, by omega⟩

/-- Modelled from the spec: the internal confidence byte representing an
unknown cell (spec section 3, cell state `Unknown`; log-odds 0 discretizes
to the middle of the byte range). -/
def NO_INFORMATION : Fin 256 := ⟨128, by omega⟩

/-- Modelled from the spec: the internal confidence byte representing an
occupied cell in the single-frame grid (spec section 3, cell state
`Occupied`). -/
def LETHAL_OBSTACLE : Fin 256 := ⟨255, by omega⟩

/-- Modelled from the spec: the grid data structure (spec section 3 and 4.1).
Width and height in cells, resolution in metres per cell, world-space origin
of the lower-left corner, and a dense row-major array of per-cell confidence
bytes of length `width * height`. -/
structure OccupancyGridMap where
  size_x : Nat
  size_y : Nat
  resolution : ℚ
  origin_x : ℚ
  origin_y : ℚ
  data : List (Fin 256)
  data_len : data.length = size_x * size_y

namespace OccupancyGridMap

/-- Modelled from the spec: grid creation allocates every cell as `Unknown`
(spec section 4.1, `resize/create`). -/
def create (sx sy : Nat) (res : ℚ) : OccupancyGridMap :=
  { size_x := sx
    size_y := sy
    resolution := res
    origin_x := 0
    origin_y := 0
    data := List.replicate (sx * sy) NO_INFORMATION
    data_len := List.length_replicate _ _ }

/-- Modelled from the spec: `setOrigin` repositions the grid without touching
cell contents, used by the single-frame grid to align with the current
platform-relative origin (spec section 4.1).  The source calls this
`updateOrigin` on the freshly created single-frame grid. -/
def updateOrigin (g : OccupancyGridMap) (x y : ℚ) : OccupancyGridMap :=
  { g with origin_x := x, origin_y := y }

def getSizeInCellsX (g : OccupancyGridMap) : Nat := g.size_x

def getSizeInCellsY (g : OccupancyGridMap) : Nat := g.size_y

def getResolution (g : OccupancyGridMap) : ℚ := g.resolution

def getOriginX (g : OccupancyGridMap) : ℚ := g.origin_x

def getOriginY (g : OccupancyGridMap) : ℚ := g.origin_y

/-- Modelled from the spec: the grid's extent in metres along x, cells times
resolution (spec section 3: the grid covers `width` cells of `resolution`
metres each). -/
def getSizeInMetersX (g : OccupancyGridMap) : ℚ := (g.size_x : ℚ) * g.resolution

/-- Modelled from the spec: the grid's extent in metres along y. -/
def getSizeInMetersY (g : OccupancyGridMap) : ℚ := (g.size_y : ℚ) * g.resolution

/-- Modelled from the spec: `worldToCell` floors the offset from the origin
divided by the resolution and rejects coordinates outside
`[0, width) x [0, height)` (spec section 3 invariant and section 4.1). -/
def worldToCell (g : OccupancyGridMap) (wx wy : ℚ) : Option (Nat × Nat) :=
  let i : Int := ((wx - g.origin_x) / g.resolution).floor
  let j : Int := ((wy - g.origin_y) / g.resolution).floor
  if 0 ≤ i ∧ i < (g.size_x : Int) ∧ 0 ≤ j ∧ j < (g.size_y : Int) then
    some (i.toNat, j.toNat)
  else
    none

/-- Bounds-checked raw cell write at column `i`, row `j` (row-major index
`j * size_x + i`); out-of-range writes leave the grid unchanged. -/
def setCell (g : OccupancyGridMap) (i j : Nat) (v : Fin 256) : OccupancyGridMap :=
  if i < g.size_x ∧ j < g.size_y then
    { g with
      data := g.data.set (j * g.size_x + i) v
      data_len := by rw [List.length_set]; exact g.data_len }
  else g

/-- Bounds-checked cell read; out-of-range reads give `Unknown`. -/
def getCell (g : OccupancyGridMap) (i j : Nat) : Fin 256 :=
  g.data.getD (j * g.size_x + i) NO_INFORMATION

/-- Marking a cell as free space: spec section 4.2 step 3, a `Free` write
never downgrades a cell already marked `Occupied` in the same frame. -/
def markFree (g : OccupancyGridMap) (i j : Nat) : OccupancyGridMap :=
  if g.getCell i j = LETHAL_OBSTACLE then g else g.setCell i j FREE_SPACE

/-- Marking a cell as occupied: occupied evidence always takes precedence
over free evidence within one frame (spec section 4.2 step 3). -/
def markOccupied (g : OccupancyGridMap) (i j : Nat) : OccupancyGridMap :=
  g.setCell i j LETHAL_OBSTACLE

end OccupancyGridMap

/-- One step of integer line rasterization (Bresenham, all octants treated
alike), fuelled for structural termination; emits every cell from the start
cell up to and including the end cell. -/
def bresenhamAux (fuel : Nat) (x0 y0 x1 y1 dx dy sx sy err : Int) :
    List (Int × Int) :=
  match fuel with
  | 0 => []
  | fuel + 1 =>
    if x0 = x1 ∧ y0 = y1 then [(x0, y0)]
    else
      let e2 := 2 * err
      let x0' := if e2 ≥ dy then x0 + sx else x0
      let y0' := if e2 ≤ dx then y0 + sy else y0
      let err' := (if e2 ≥ dy then err + dy else err) + (if e2 ≤ dx then dx else 0)
      (x0, y0) :: bresenhamAux fuel x0' y0' x1 y1 dx dy sx sy err'

/-- Modelled from the spec: the discrete line from the origin cell to the
target cell, a stateless function producing the finite sequence of cell
coordinates from origin to target (spec sections 4.2 step 2 and 9). -/
def bresenham (x0 y0 x1 y1 : Int) : List (Int × Int) :=
  let dx := (x1 - x0).natAbs
  let dy := (y1 - y0).natAbs
  let sx : Int := if x0 < x1 then 1 else -1
  let sy : Int := if y0 < y1 then 1 else -1
  bresenhamAux (dx + dy + 1) x0 y0 x1 y1 (dx : Int) (-(dy : Int)) sx sy
    ((dx : Int) + (-(dy : Int)))

namespace OccupancyGridMap

/-- Modelled from the spec: processing of one observation by the raycaster
(spec section 4.2).  The world point and the scan origin are converted to
cell coordinates; if either falls outside the grid the observation is
silently skipped.  Every intermediate cell of the discrete line is marked
free; the endpoint is marked occupied exactly when the observation is tagged
`is_obstacle`, and free otherwise. -/
def raycastOne (g : OccupancyGridMap) (scan_origin : Pose) (p : Point3)
    (is_obstacle : Bool) : OccupancyGridMap :=
  match g.worldToCell scan_origin.x scan_origin.y, g.worldToCell p.x p.y with
  | some (oi, oj), some (ti, tj) =>
    let line := bresenham (oi : Int) (oj : Int) (ti : Int) (tj : Int)
    let body := line.dropLast
    let g1 := body.foldl (fun h c => h.markFree c.1.toNat c.2.toNat) g
    if is_obstacle then g1.markOccupied ti tj else g1.markFree ti tj
  | _, _ => g

/-- Modelled from the spec: the single-frame raycaster (spec sections 3, 4.2
and 6).  Observations are the obstacle-subset points tagged `is_obstacle`
and the raw-cloud points absent from the obstacle subset tagged as
non-obstacle; the platform pose parameter is carried in the call but not
consumed by the algorithm (spec section 6). -/
def updateWithPointCloud (g : OccupancyGridMap) (raw_pointcloud : PointCloud2)
    (obstacle_pointcloud : PointCloud2) (_robot_pose : Pose)
    (scan_origin : Pose) : OccupancyGridMap :=
  let obs : List (Point3 × Bool) :=
    obstacle_pointcloud.map (fun p => (p, true)) ++
      (raw_pointcloud.filter
        (fun p => !(decide (p ∈ obstacle_pointcloud)))).map (fun p => (p, false))
  obs.foldl (fun h o => h.raycastOne scan_origin o.1 o.2) g

end OccupancyGridMap

/-- Modelled from the spec: the per-cell binary Bayes update in the clamped
confidence-byte space (spec section 4.3).  The occupied increment, free
decrement and clamp bounds are tunable configuration (spec section 9); the
defaults below are the documented stand-ins. -/
def bbfUpdateCell (z L : Fin 256) : Fin 256 :=
  if z = LETHAL_OBSTACLE then
    ⟨min (L.val + 20) 235, by omega⟩
  else if z = FREE_SPACE then
    ⟨max (L.val - 10) 20, by have := L.isLt; omega⟩
  else L

/-- Modelled from the spec: origin-shift reconciliation of the persistent
grid (spec section 4.3).  The shift is rounded consistently to a whole
number of cells; cells whose world position stays inside the window keep
their confidence, cells newly entering the window are `Unknown`. -/
def shiftGridToOrigin (g : OccupancyGridMap) (nox noy : ℚ) : OccupancyGridMap :=
  let cox : Int := ((nox - g.origin_x) / g.resolution).floor
  let coy : Int := ((noy - g.origin_y) / g.resolution).floor
  { g with
    origin_x := g.origin_x + (cox : ℚ) * g.resolution
    origin_y := g.origin_y + (coy : ℚ) * g.resolution
    data := (List.range (g.size_x * g.size_y)).map (fun idx =>
      let i : Int := (idx % g.size_x : Nat) + cox
      let j : Int := (idx / g.size_x : Nat) + coy
      if 0 ≤ i ∧ i < (g.size_x : Int) ∧ 0 ≤ j ∧ j < (g.size_y : Int) then
        g.data.getD (j.toNat * g.size_x + i.toNat) NO_INFORMATION
      else NO_INFORMATION)
    data_len := by rw [List.length_map, List.length_range] }

namespace OccupancyGridMapBBFUpdater

/-- Modelled from the spec: the Bayesian fuser's update (spec section 4.3).
The persistent grid is first shifted to the single-frame grid's origin, then
every cell is updated by the binary Bayes rule with the matching
single-frame cell as the evidence; a cell with no matching single-frame
evidence is left unchanged. -/
def update (persistent single : OccupancyGridMap) : OccupancyGridMap :=
  let shifted := shiftGridToOrigin persistent single.origin_x single.origin_y
  { shifted with
    data := (List.range shifted.data.length).map (fun idx =>
      bbfUpdateCell (single.data.getD idx NO_INFORMATION)
        (shifted.data.getD idx NO_INFORMATION))
    data_len := by rw [List.length_map, List.length_range]; exact shifted.data_len }

end OccupancyGridMapBBFUpdater

namespace occupancy_cost_value

/-- Modelled from the spec: the cost translation table (spec section 4.4).
A fixed lookup table indexed by the internal confidence byte: the `Unknown`
byte maps to the no-information sentinel `-1`, every other byte maps
monotonically onto the bounded output scale `0..100`. -/
def cost_translation_table (i : Fin 256) : Int :=
  if i = NO_INFORMATION then -1 else ((i.val * 100) / 255 : Nat)

end occupancy_cost_value

namespace utils

/-- Modelled from the spec: height-band cropping of a point cloud (out of
scope in the spec, section 1: point-cloud pre-filtering / height banding).
The host's transform service first expresses the cloud in the target frame
(`transformed`, `none` when the transform is unavailable, in which case the
crop fails); the surviving points are those whose height lies inside
`[min_height, max_height]`. -/
def cropPointcloudByHeight (transformed : Option PointCloud2)
    (min_height max_height : ℚ) : Option PointCloud2 :=
  transformed.map (fun pc =>
    pc.filter (fun p => decide (min_height ≤ p.z) && decide (p.z ≤ max_height)))

/-- Modelled from the spec: extraction of the points common to the obstacle
cloud and the raw cloud (out of scope in the spec, section 1: obstacle/raw
intersection).  The extraction fails when no common point exists. -/
def extractCommonPointCloud (obstacle_pc raw_pc : PointCloud2) :
    Option PointCloud2 :=
  let common := obstacle_pc.filter (fun p => decide (p ∈ raw_pc))
  if common.isEmpty then none else some common

end utils

/-- The node's configuration parameters, read once in the constructor
(source lines 54-63). -/
structure Config where
  map_frame : String
  base_link_frame : String
  gridmap_origin_frame : String
  scan_origin_frame : String
  use_height_filter : Bool
  enable_single_frame_mode : Bool
  filter_obstacle_pointcloud_by_raw_pointcloud : Bool
  map_length : ℚ
  map_resolution : ℚ
deriving DecidableEq

/-- The node's mutable state: the configuration and the persistent grid
owned by the Bayesian-filter updater. -/
structure NodeState where
  config : Config
  occupancy_grid_map_updater : OccupancyGridMap

/-- The per-cycle inputs of `onPointcloudWithObstacleAndRaw`: the two
synchronized clouds, and the answers the external transform service gives
during this cycle (clouds expressed in a requested frame, and poses of a
source frame in a target frame; `none` embeds a thrown transform
exception / a failed lookup). -/
structure CycleInput where
  obstacle_msg : PointCloud2
  raw_msg : PointCloud2
  raw_frame_id : String
  tfCloud : String → PointCloud2 → Option PointCloud2
  lookupPose : String → String → Option Pose

/-- The published occupancy-grid message: header frame, map metadata and the
dense row-major data array (source lines 181-209; the time stamp is carried
by the host and not modelled). -/
structure OccupancyGrid where
  frame_id : String
  resolution : ℚ
  width : Nat
  height : Nat
  origin_x : ℚ
  origin_y : ℚ
  origin_z : ℚ
  orientation_w : ℚ
  data : List Int

/-- Embeds `PointcloudBasedOccupancyGridMapNode::OccupancyGridMapToMsgPtr`
(source lines 181-209): copies resolution, cell dimensions and world origin
into the message, sets the origin's z to the robot pose's z, and fills the
data array with the cost-translation of every confidence byte of the grid's
row-major char map. -/
def OccupancyGridMapToMsgPtr (frame_id : String) (robot_pose_z : ℚ)
    (g : OccupancyGridMap) : OccupancyGrid :=
  { frame_id := frame_id
    resolution := g.getResolution
    width := g.getSizeInCellsX
    height := g.getSizeInCellsY
    origin_x := g.getOriginX
    origin_y := g.getOriginY
    origin_z := robot_pose_z
    orientation_w := 1
    data := g.data.map occupancy_cost_value.cost_translation_table }

/-- Embeds the height-filter block of `onPointcloudWithObstacleAndRaw`
(source lines 100-117): when the filter is enabled both clouds are cropped
to the band `[-1, 2]` in the base-link frame and a failed crop aborts
(`none`); otherwise the input clouds pass through unchanged. -/
def filteredClouds (cfg : Config) (inp : CycleInput) :
    Option (PointCloud2 × PointCloud2) :=
  if cfg.use_height_filter then
    match utils.cropPointcloudByHeight
        (inp.tfCloud cfg.base_link_frame inp.obstacle_msg) (-1) 2 with
    | none => none
    | some cropped_obstacle_pc =>
      match utils.cropPointcloudByHeight
          (inp.tfCloud cfg.base_link_frame inp.raw_msg) (-1) 2 with
      | none => none
      | some cropped_raw_pc => some (cropped_obstacle_pc, cropped_raw_pc)
  else some (inp.obstacle_msg, inp.raw_msg)

/-- Embeds the obstacle-by-raw filtering block (source lines 119-128): when
enabled, the common-point extraction's result is used, falling back to the
height-filtered obstacle cloud when the extraction fails; when disabled the
height-filtered obstacle cloud is used directly. -/
def obstacleCommonCloud (cfg : Config)
    (filtered_obstacle_pc filtered_raw_pc : PointCloud2) : PointCloud2 :=
  if cfg.filter_obstacle_pointcloud_by_raw_pointcloud then
    match utils.extractCommonPointCloud filtered_obstacle_pc filtered_raw_pc with
    | none => filtered_obstacle_pc
    | some c => c
  else filtered_obstacle_pc

/-- Embeds the pose-resolution block (source lines 130-143): the robot pose
(the raw cloud's frame in the map frame), the grid-map origin pose and the
scan origin pose, all in the map frame; a failure of any lookup embeds the
caught transform exception and yields `none`. -/
def resolvedPoses (cfg : Config) (inp : CycleInput) :
    Option (Pose × Pose × Pose) :=
  match inp.lookupPose inp.raw_frame_id cfg.map_frame with
  | none => none
  | some robot_pose =>
    match inp.lookupPose cfg.gridmap_origin_frame cfg.map_frame with
    | none => none
    | some gridmap_origin =>
      match inp.lookupPose cfg.scan_origin_frame cfg.map_frame with
      | none => none
      | some scan_origin => some (robot_pose, gridmap_origin, scan_origin)

/-- Embeds the single-frame grid construction (source lines 145-154): a
fresh grid with the persistent grid's cell dimensions and resolution, its
origin moved so the grid is centered on the grid-map origin pose, then
populated by the raycaster from the two clouds. -/
def buildSingleFrameGrid (s : NodeState)
    (filtered_raw_pc filtered_obstacle_pc_common : PointCloud2)
    (robot_pose gridmap_origin scan_origin : Pose) : OccupancyGridMap :=
  let g := OccupancyGridMap.create
    s.occupancy_grid_map_updater.getSizeInCellsX
    s.occupancy_grid_map_updater.getSizeInCellsY
    s.occupancy_grid_map_updater.getResolution
  let g := g.updateOrigin (gridmap_origin.x - g.getSizeInMetersX / 2)
    (gridmap_origin.y - g.getSizeInMetersY / 2)
  g.updateWithPointCloud filtered_raw_pc filtered_obstacle_pc_common
    robot_pose scan_origin

/-- Embeds the tail of the cycle after pose resolution (source lines
145-169): build the single-frame grid; in single-frame mode publish its
conversion directly, otherwise update the persistent grid with the Bayes
filter and publish the conversion of the updated persistent grid. -/
def fuseAndPublish (s : NodeState)
    (filtered_raw_pc filtered_obstacle_pc_common : PointCloud2)
    (robot_pose gridmap_origin scan_origin : Pose) :
    NodeState × Option OccupancyGrid :=
  let single_frame_occupancy_grid_map := buildSingleFrameGrid s
    filtered_raw_pc filtered_obstacle_pc_common robot_pose gridmap_origin
    scan_origin
  if s.config.enable_single_frame_mode then
    (s, some (OccupancyGridMapToMsgPtr s.config.map_frame robot_pose.z
      single_frame_occupancy_grid_map))
  else
    let updated := OccupancyGridMapBBFUpdater.update
      s.occupancy_grid_map_updater single_frame_occupancy_grid_map
    ({ s with occupancy_grid_map_updater := updated },
      some (OccupancyGridMapToMsgPtr s.config.map_frame robot_pose.z updated))

/-- Embeds `PointcloudBasedOccupancyGridMapNode::onPointcloudWithObstacleAndRaw`
(source lines 93-179): height filter, obstacle-by-raw filter, pose
resolution, single-frame grid construction, optional Bayes update and
publication.  The result is the next node state together with the published
message (`none` when the cycle aborts before publishing). -/
def onPointcloudWithObstacleAndRaw (s : NodeState) (inp : CycleInput) :
    NodeState × Option OccupancyGrid :=
  match filteredClouds s.config inp with
  | none => (s, none)
  | some (filtered_obstacle_pc, filtered_raw_pc) =>
    let filtered_obstacle_pc_common :=
      obstacleCommonCloud s.config filtered_obstacle_pc filtered_raw_pc
    match resolvedPoses s.config inp with
    | none => (s, none)
    | some (robot_pose, gridmap_origin, scan_origin) =>
      fuseAndPublish s filtered_raw_pc filtered_obstacle_pc_common
        robot_pose gridmap_origin scan_origin

/-- Embeds the node constructor (source lines 46-91): stores the declared
parameters and creates the persistent grid once, with
`map_length / map_resolution` cells per side (the double-to-unsigned
conversion truncates) and the configured resolution. -/
def PointcloudBasedOccupancyGridMapNode (cfg : Config) : NodeState :=
  let cells : Nat := ((cfg.map_length / cfg.map_resolution).floor).toNat
  { config := cfg
    occupancy_grid_map_updater :=
      OccupancyGridMap.create cells cells cfg.map_resolution }

/-- The geometric metadata of a grid: cell dimensions, resolution and world
origin, everything except the cell contents. -/
def gridMeta (g : OccupancyGridMap) : Nat × Nat × ℚ × ℚ × ℚ :=
  (g.size_x, g.size_y, g.resolution, g.origin_x, g.origin_y)

lemma setCell_gridMeta (g : OccupancyGridMap) (i j : Nat) (v : Fin 256) :
    gridMeta (g.setCell i j v) = gridMeta g := by
  unfold OccupancyGridMap.setCell
  split <;> rfl

lemma markFree_gridMeta (g : OccupancyGridMap) (i j : Nat) :
    gridMeta (g.markFree i j) = gridMeta g := by
  unfold OccupancyGridMap.markFree
  split
  · rfl
  · exact setCell_gridMeta g i j FREE_SPACE

lemma markOccupied_gridMeta (g : OccupancyGridMap) (i j : Nat) :
    gridMeta (g.markOccupied i j) = gridMeta g :=
  setCell_gridMeta g i j LETHAL_OBSTACLE

lemma foldl_gridMeta {α : Type} (f : OccupancyGridMap → α → OccupancyGridMap)
    (hf : ∀ g a, gridMeta (f g a) = gridMeta g) :
    ∀ (l : List α) (g : OccupancyGridMap), gridMeta (l.foldl f g) = gridMeta g := by
  intro l
  induction l with
  | nil => intro g; rfl
  | cons a t ih =>
    intro g
    rw [List.foldl_cons, ih, hf]

lemma raycastOne_gridMeta (g : OccupancyGridMap) (so : Pose) (p : Point3)
    (b : Bool) : gridMeta (g.raycastOne so p b) = gridMeta g := by
  unfold OccupancyGridMap.raycastOne
  cases hc1 : g.worldToCell so.x so.y with
  | none => rfl
  | some c1 =>
    cases hc2 : g.worldToCell p.x p.y with
    | none => rfl
    | some c2 =>
      obtain ⟨oi, oj⟩ := c1
      obtain ⟨ti, tj⟩ := c2
      simp only
      split
      · rw [markOccupied_gridMeta]
        exact foldl_gridMeta (fun (h : OccupancyGridMap) (c : Int × Int) =>
            h.markFree c.1.toNat c.2.toNat)
          (fun h c => markFree_gridMeta h c.1.toNat c.2.toNat) _ g
      · rw [markFree_gridMeta]
        exact foldl_gridMeta (fun (h : OccupancyGridMap) (c : Int × Int) =>
            h.markFree c.1.toNat c.2.toNat)
          (fun h c => markFree_gridMeta h c.1.toNat c.2.toNat) _ g

lemma updateWithPointCloud_gridMeta (g : OccupancyGridMap)
    (raw obstacle : PointCloud2) (rp so : Pose) :
    gridMeta (g.updateWithPointCloud raw obstacle rp so) = gridMeta g := by
  simp only [OccupancyGridMap.updateWithPointCloud]
  exact foldl_gridMeta (fun (h : OccupancyGridMap) (o : Point3 × Bool) =>
      h.raycastOne so o.1 o.2)
    (fun h o => raycastOne_gridMeta h so o.1 o.2) _ g

/-- A sample configuration: single-frame mode on, both optional filters off,
a 2 x 2 cell grid of resolution 1. -/
def sampleConfig : Config :=
  { map_frame := "map", base_link_frame := "base_link",
    gridmap_origin_frame := "base_link", scan_origin_frame := "base_link",
    use_height_filter := false, enable_single_frame_mode := true,
    filter_obstacle_pointcloud_by_raw_pointcloud := false,
    map_length := 2, map_resolution := 1 }

/-- The node state right after construction with `sampleConfig`. -/
def sampleState : NodeState := PointcloudBasedOccupancyGridMapNode sampleConfig

/-- A sample cycle input: one obstacle return, transforms available, all
poses at the map origin. -/
def sampleInput : CycleInput :=
  { obstacle_msg := [⟨0, 0, 0⟩], raw_msg := [⟨0, 0, 0⟩],
    raw_frame_id := "sensor",
    tfCloud := fun _ pc => some pc,
    lookupPose := fun _ _ => some ⟨0, 0, 0⟩ }

/-- Claim C5: the cost quantization is total on every confidence byte and
monotonic away from the dedicated no-information sentinel: for any two
byte values `a ≤ b`, neither equal to the `Unknown` byte, the table output
at `a` is at most the table output at `b`. -/
theorem cost_translation_table_total_and_monotone :
    (∀ i : Fin 256, ∃ v : Int,
      occupancy_cost_value.cost_translation_table i = v) ∧
    ∀ a b : Fin 256, a.val ≤ b.val → a ≠ NO_INFORMATION → b ≠ NO_INFORMATION →
      occupancy_cost_value.cost_translation_table a ≤
        occupancy_cost_value.cost_translation_table b := by
  constructor
  · intro i
    exact ⟨occupancy_cost_value.cost_translation_table i, rfl⟩
  · intro a b hab ha hb
    unfold occupancy_cost_value.cost_translation_table
    rw [if_neg ha, if_neg hb]
    exact_mod_cast Nat.div_le_div_right (Nat.mul_le_mul_right 100 hab)

/-- Witness for C5: the monotonicity at the concrete pair of bytes 0 and 255. -/
theorem cost_translation_table_total_and_monotone_witness :
    occupancy_cost_value.cost_translation_table ⟨0, by omega⟩ ≤
      occupancy_cost_value.cost_translation_table ⟨255, by omega⟩ :=
  cost_translation_table_total_and_monotone.2 ⟨0, by omega⟩ ⟨255, by omega⟩
    (by decide) (by decide) (by decide)

/-- Claim C6: every cycle's single-frame grid is created with exactly the
persistent grid's cell dimensions and resolution, and its origin (the
lower-left corner) equals the grid-origin pose's position minus half the
grid's size in metres in each axis. -/
theorem single_frame_grid_fresh_geometry (s : NodeState)
    (fr fc : PointCloud2) (rp go so : Pose) :
    (buildSingleFrameGrid s fr fc rp go so).size_x =
      s.occupancy_grid_map_updater.size_x ∧
    (buildSingleFrameGrid s fr fc rp go so).size_y =
      s.occupancy_grid_map_updater.size_y ∧
    (buildSingleFrameGrid s fr fc rp go so).resolution =
      s.occupancy_grid_map_updater.resolution ∧
    (buildSingleFrameGrid s fr fc rp go so).origin_x =
      go.x - ((s.occupancy_grid_map_updater.size_x : ℚ) *
        s.occupancy_grid_map_updater.resolution) / 2 ∧
    (buildSingleFrameGrid s fr fc rp go so).origin_y =
      go.y - ((s.occupancy_grid_map_updater.size_y : ℚ) *
        s.occupancy_grid_map_updater.resolution) / 2 := by
  have h := updateWithPointCloud_gridMeta
    ((OccupancyGridMap.create s.occupancy_grid_map_updater.getSizeInCellsX
        s.occupancy_grid_map_updater.getSizeInCellsY
        s.occupancy_grid_map_updater.getResolution).updateOrigin
      (go.x - ((s.occupancy_grid_map_updater.size_x : ℚ) *
        s.occupancy_grid_map_updater.resolution) / 2)
      (go.y - ((s.occupancy_grid_map_updater.size_y : ℚ) *
        s.occupancy_grid_map_updater.resolution) / 2))
    fr fc rp so
  simp only [gridMeta, OccupancyGridMap.updateOrigin, OccupancyGridMap.create,
    Prod.mk.injEq] at h
  exact h

/-- Claim C8: processing a point-cloud pair never modifies any configuration
field: the node's configuration is identical before and after every cycle. -/
theorem config_immutable_across_cycles (s : NodeState) (inp : CycleInput) :
    (onPointcloudWithObstacleAndRaw s inp).1.config = s.config := by
  unfold onPointcloudWithObstacleAndRaw
  cases filteredClouds s.config inp with
  | none => rfl
  | some pcs =>
    obtain ⟨fo, fr⟩ := pcs
    simp only
    cases resolvedPoses s.config inp with
    | none => rfl
    | some ps =>
      obtain ⟨rp, go, so⟩ := ps
      simp only [fuseAndPublish]
      split <;> rfl

/-- Claim C1: with single-frame-only mode enabled a cycle never changes the node
state (in particular the persistent grid's cell confidences are
bit-identical before and after), and whatever the cycle publishes is the
quantizing conversion of the single-frame grid built that cycle, the
persistent updater never being consulted. -/
theorem single_frame_mode_preserves_persistent_grid (s : NodeState)
    (inp : CycleInput) (h : s.config.enable_single_frame_mode = true) :
    (onPointcloudWithObstacleAndRaw s inp).1 = s ∧
    ((onPointcloudWithObstacleAndRaw s inp).2 = none ∨
      ∃ fo fr rp go so,
        filteredClouds s.config inp = some (fo, fr) ∧
        resolvedPoses s.config inp = some (rp, go, so) ∧
        (onPointcloudWithObstacleAndRaw s inp).2 =
          some (OccupancyGridMapToMsgPtr s.config.map_frame rp.z
            (buildSingleFrameGrid s fr (obstacleCommonCloud s.config fo fr)
              rp go so))) := by
  unfold onPointcloudWithObstacleAndRaw
  cases hfc : filteredClouds s.config inp with
  | none => exact ⟨rfl, Or.inl rfl⟩
  | some pcs =>
    obtain ⟨fo, fr⟩ := pcs
    simp only
    cases hrp : resolvedPoses s.config inp with
    | none => exact ⟨rfl, Or.inl rfl⟩
    | some ps =>
      obtain ⟨rp, go, so⟩ := ps
      unfold fuseAndPublish
      rw [h]
      exact ⟨rfl, Or.inr ⟨fo, fr, rp, go, so, rfl, rfl, rfl⟩⟩

/-- Witness for C1: a concrete single-frame-mode cycle whose state is returned
unchanged. -/
theorem single_frame_mode_preserves_persistent_grid_witness :
    (onPointcloudWithObstacleAndRaw sampleState sampleInput).1 = sampleState :=
  (single_frame_mode_preserves_persistent_grid sampleState sampleInput rfl).1

/-- Claim C2: when resolving the robot pose, grid-origin pose or scan-origin pose
fails, the cycle is skipped entirely: the node state (and with it the
persistent grid) is unchanged and nothing is published. -/
theorem pose_failure_skips_cycle (s : NodeState) (inp : CycleInput)
    (h : resolvedPoses s.config inp = none) :
    onPointcloudWithObstacleAndRaw s inp = (s, none) := by
  unfold onPointcloudWithObstacleAndRaw
  cases hfc : filteredClouds s.config inp with
  | none => rfl
  | some pcs =>
    obtain ⟨fo, fr⟩ := pcs
    simp only [h]

/-- A sample cycle input whose pose lookups all fail. -/
def sampleInputNoPose : CycleInput :=
  { sampleInput with lookupPose := fun _ _ => none }

/-- Witness for C2: a concrete cycle with failing pose lookups returns the
state unchanged and publishes nothing. -/
theorem pose_failure_skips_cycle_witness :
    onPointcloudWithObstacleAndRaw sampleState sampleInputNoPose =
      (sampleState, none) :=
  pose_failure_skips_cycle sampleState sampleInputNoPose rfl

/-- Claim C7: the persistent grid is created exactly once by the constructor, and
a cycle either leaves it untouched or replaces it by exactly one Bayes-fuser
update whose evidence is the single-frame grid built and raycast-populated
that cycle, the published message being the quantization of the updated
persistent grid (build, fill, fuse, quantize, in that order). -/
theorem persistent_grid_update_discipline :
    (∀ cfg : Config,
      (PointcloudBasedOccupancyGridMapNode cfg).occupancy_grid_map_updater =
        OccupancyGridMap.create ((cfg.map_length / cfg.map_resolution).floor.toNat)
          ((cfg.map_length / cfg.map_resolution).floor.toNat) cfg.map_resolution) ∧
    ∀ (s : NodeState) (inp : CycleInput),
      (onPointcloudWithObstacleAndRaw s inp).1.occupancy_grid_map_updater =
        s.occupancy_grid_map_updater ∨
      ∃ fo fr rp go so,
        filteredClouds s.config inp = some (fo, fr) ∧
        resolvedPoses s.config inp = some (rp, go, so) ∧
        s.config.enable_single_frame_mode = false ∧
        (onPointcloudWithObstacleAndRaw s inp).1.occupancy_grid_map_updater =
          OccupancyGridMapBBFUpdater.update s.occupancy_grid_map_updater
            (buildSingleFrameGrid s fr (obstacleCommonCloud s.config fo fr)
              rp go so) ∧
        (onPointcloudWithObstacleAndRaw s inp).2 =
          some (OccupancyGridMapToMsgPtr s.config.map_frame rp.z
            ((onPointcloudWithObstacleAndRaw s inp).1.occupancy_grid_map_updater)) := by
  constructor
  · intro cfg
    rfl
  · intro s inp
    unfold onPointcloudWithObstacleAndRaw
    cases hfc : filteredClouds s.config inp with
    | none => exact Or.inl rfl
    | some pcs =>
      obtain ⟨fo, fr⟩ := pcs
      simp only
      cases hrp : resolvedPoses s.config inp with
      | none => exact Or.inl rfl
      | some ps =>
        obtain ⟨rp, go, so⟩ := ps
        unfold fuseAndPublish
        cases hm : s.config.enable_single_frame_mode with
        | true => exact Or.inl rfl
        | false => exact Or.inr ⟨fo, fr, rp, go, so, rfl, rfl, rfl, rfl, rfl⟩

/-- Forgets the published origin's z coordinate, the only message field fed
from the platform pose. -/
def eraseOriginZ (m : OccupancyGrid) : OccupancyGrid := { m with origin_z := 0 }

lemma filteredClouds_congr (cfg : Config) (inp inp' : CycleInput)
    (hobs : inp.obstacle_msg = inp'.obstacle_msg)
    (hraw : inp.raw_msg = inp'.raw_msg)
    (htf : inp.tfCloud = inp'.tfCloud) :
    filteredClouds cfg inp = filteredClouds cfg inp' := by
  unfold filteredClouds
  rw [hobs, hraw, htf]

lemma fuseAndPublish_robot_pose (s : NodeState) (fr fc : PointCloud2)
    (rp rp' go so : Pose) :
    (fuseAndPublish s fr fc rp go so).1 = (fuseAndPublish s fr fc rp' go so).1 ∧
    ((fuseAndPublish s fr fc rp go so).2).map eraseOriginZ =
      ((fuseAndPublish s fr fc rp' go so).2).map eraseOriginZ := by
  unfold fuseAndPublish
  cases hm : s.config.enable_single_frame_mode <;> exact ⟨rfl, rfl⟩

/-- Claim C3: the platform (robot) pose influences only the published origin's z
coordinate: two cycles whose inputs differ only in the resolved platform
pose give the same next state and messages that agree on every field once
the origin's z is erased (in particular identical grid cell data). -/
theorem robot_pose_only_affects_origin_z (s : NodeState)
    (inp inp' : CycleInput) (rp rp' go so : Pose)
    (hobs : inp.obstacle_msg = inp'.obstacle_msg)
    (hraw : inp.raw_msg = inp'.raw_msg)
    (htf : inp.tfCloud = inp'.tfCloud)
    (hp : resolvedPoses s.config inp = some (rp, go, so))
    (hp' : resolvedPoses s.config inp' = some (rp', go, so)) :
    (onPointcloudWithObstacleAndRaw s inp).1 =
      (onPointcloudWithObstacleAndRaw s inp').1 ∧
    ((onPointcloudWithObstacleAndRaw s inp).2).map eraseOriginZ =
      ((onPointcloudWithObstacleAndRaw s inp').2).map eraseOriginZ := by
  have hfc' := filteredClouds_congr s.config inp inp' hobs hraw htf
  unfold onPointcloudWithObstacleAndRaw
  rw [← hfc', hp, hp']
  cases hfc : filteredClouds s.config inp with
  | none => exact ⟨rfl, rfl⟩
  | some pcs =>
    obtain ⟨fo, fr⟩ := pcs
    exact fuseAndPublish_robot_pose s fr (obstacleCommonCloud s.config fo fr)
      rp rp' go so

/-- A sample cycle input identical to `sampleInput` except that the robot
pose lookup (the raw cloud's frame) answers a different height. -/
def sampleInputRobotShifted : CycleInput :=
  { sampleInput with
    lookupPose := fun src _ =>
      if src = "sensor" then some ⟨0, 0, 5⟩ else some ⟨0, 0, 0⟩ }

/-- Witness for C3: two concrete cycles differing only in the robot pose
publish messages equal up to the origin's z coordinate. -/
theorem robot_pose_only_affects_origin_z_witness :
    ((onPointcloudWithObstacleAndRaw sampleState sampleInput).2).map eraseOriginZ =
      ((onPointcloudWithObstacleAndRaw sampleState sampleInputRobotShifted).2).map
        eraseOriginZ :=
  (robot_pose_only_affects_origin_z sampleState sampleInput
    sampleInputRobotShifted ⟨0, 0, 0⟩ ⟨0, 0, 5⟩ ⟨0, 0, 0⟩ ⟨0, 0, 0⟩
    rfl rfl rfl rfl rfl).2

/-- Claim C4: every published message carries exactly the grid's dimensions,
resolution and world origin, and its data field is the dense row-major
sequence of quantized cell values, of length width times height, one per
grid cell. -/
theorem published_message_matches_grid (s : NodeState) (inp : CycleInput)
    (msg : OccupancyGrid)
    (h : (onPointcloudWithObstacleAndRaw s inp).2 = some msg) :
    ∃ (g : OccupancyGridMap) (z : ℚ),
      msg = OccupancyGridMapToMsgPtr s.config.map_frame z g ∧
      msg.width = g.getSizeInCellsX ∧
      msg.height = g.getSizeInCellsY ∧
      msg.resolution = g.getResolution ∧
      msg.origin_x = g.getOriginX ∧
      msg.origin_y = g.getOriginY ∧
      msg.data = g.data.map occupancy_cost_value.cost_translation_table ∧
      msg.data.length = msg.width * msg.height := by
  revert h
  unfold onPointcloudWithObstacleAndRaw
  cases hfc : filteredClouds s.config inp with
  | none => intro h; exact Option.noConfusion h
  | some pcs =>
    obtain ⟨fo, fr⟩ := pcs
    simp only
    cases hrp : resolvedPoses s.config inp with
    | none => intro h; exact Option.noConfusion h
    | some ps =>
      obtain ⟨rp, go, so⟩ := ps
      unfold fuseAndPublish
      cases hm : s.config.enable_single_frame_mode with
      | true =>
        intro h
        obtain rfl := (Option.some.inj h).symm
        refine ⟨buildSingleFrameGrid s fr (obstacleCommonCloud s.config fo fr)
          rp go so, rp.z, rfl, rfl, rfl, rfl, rfl, rfl, rfl, ?_⟩
        show ((buildSingleFrameGrid s fr (obstacleCommonCloud s.config fo fr)
          rp go so).data.map occupancy_cost_value.cost_translation_table).length = _
        rw [List.length_map]
        exact (buildSingleFrameGrid s fr (obstacleCommonCloud s.config fo fr)
          rp go so).data_len
      | false =>
        intro h
        obtain rfl := (Option.some.inj h).symm
        refine ⟨OccupancyGridMapBBFUpdater.update s.occupancy_grid_map_updater
          (buildSingleFrameGrid s fr (obstacleCommonCloud s.config fo fr)
            rp go so), rp.z, rfl, rfl, rfl, rfl, rfl, rfl, rfl, ?_⟩
        show ((OccupancyGridMapBBFUpdater.update s.occupancy_grid_map_updater
          (buildSingleFrameGrid s fr (obstacleCommonCloud s.config fo fr)
            rp go so)).data.map occupancy_cost_value.cost_translation_table).length = _
        rw [List.length_map]
        exact (OccupancyGridMapBBFUpdater.update s.occupancy_grid_map_updater
          (buildSingleFrameGrid s fr (obstacleCommonCloud s.config fo fr)
            rp go so)).data_len

/-- The concrete message published by the sample single-frame cycle. -/
def sampleMsg : OccupancyGrid :=
  OccupancyGridMapToMsgPtr sampleConfig.map_frame 0
    (buildSingleFrameGrid sampleState sampleInput.raw_msg
      sampleInput.obstacle_msg ⟨0, 0, 0⟩ ⟨0, 0, 0⟩ ⟨0, 0, 0⟩)

/-- Witness for C4: the sample cycle's published message has a dense data
array of exactly width times height quantized cells. -/
theorem published_message_matches_grid_witness :
    sampleMsg.data.length = sampleMsg.width * sampleMsg.height := by
  obtain ⟨g, z, h1, h2, h3, h4, h5, h6, h7, h8⟩ :=
    published_message_matches_grid sampleState sampleInput sampleMsg rfl
  exact h8

lemma cropPointcloudByHeight_band (t : Option PointCloud2) (mn mx : ℚ)
    (pc : PointCloud2)
    (hc : utils.cropPointcloudByHeight t mn mx = some pc) :
    ∀ p ∈ pc, mn ≤ p.z ∧ p.z ≤ mx := by
  cases t with
  | none => exact Option.noConfusion hc
  | some l =>
    obtain rfl := (Option.some.inj hc).symm
    intro p hp
    obtain ⟨hmem, hcond⟩ := List.mem_filter.mp hp
    rw [Bool.and_eq_true] at hcond
    exact ⟨of_decide_eq_true hcond.1, of_decide_eq_true hcond.2⟩

/-- Claim C9: with the height filter enabled, the clouds every later stage sees
are exactly the two input clouds cropped (in the base-link frame, via the
host transform) to the fixed band `[-1, 2]`, every surviving point's height
lies in that band, and a failed crop abandons the cycle silently: the state
is unchanged and nothing is published. -/
theorem height_filter_crops_and_aborts (s : NodeState) (inp : CycleInput)
    (h : s.config.use_height_filter = true) :
    filteredClouds s.config inp =
      (utils.cropPointcloudByHeight
        (inp.tfCloud s.config.base_link_frame inp.obstacle_msg) (-1) 2).bind
        (fun co => (utils.cropPointcloudByHeight
          (inp.tfCloud s.config.base_link_frame inp.raw_msg) (-1) 2).map
          (fun cr => (co, cr))) ∧
    (∀ pcs ∈ filteredClouds s.config inp,
      (∀ p ∈ pcs.1, -1 ≤ p.z ∧ p.z ≤ 2) ∧
      (∀ p ∈ pcs.2, -1 ≤ p.z ∧ p.z ≤ 2)) ∧
    (filteredClouds s.config inp = none →
      onPointcloudWithObstacleAndRaw s inp = (s, none)) := by
  have heq : filteredClouds s.config inp =
      (utils.cropPointcloudByHeight
        (inp.tfCloud s.config.base_link_frame inp.obstacle_msg) (-1) 2).bind
        (fun co => (utils.cropPointcloudByHeight
          (inp.tfCloud s.config.base_link_frame inp.raw_msg) (-1) 2).map
          (fun cr => (co, cr))) := by
    unfold filteredClouds
    rw [h]
    cases c1 : utils.cropPointcloudByHeight
        (inp.tfCloud s.config.base_link_frame inp.obstacle_msg) (-1) 2 with
    | none => rfl
    | some co =>
      cases c2 : utils.cropPointcloudByHeight
          (inp.tfCloud s.config.base_link_frame inp.raw_msg) (-1) 2 with
      | none => rfl
      | some cr => rfl
  refine ⟨heq, ?_, ?_⟩
  · intro pcs hmem
    rw [heq] at hmem
    cases c1 : utils.cropPointcloudByHeight
        (inp.tfCloud s.config.base_link_frame inp.obstacle_msg) (-1) 2 with
    | none => rw [c1] at hmem; exact Option.noConfusion hmem
    | some co =>
      rw [c1] at hmem
      cases c2 : utils.cropPointcloudByHeight
          (inp.tfCloud s.config.base_link_frame inp.raw_msg) (-1) 2 with
      | none => rw [c2] at hmem; exact Option.noConfusion hmem
      | some cr =>
        rw [c2] at hmem
        obtain rfl := (Option.some.inj hmem).symm
        exact ⟨cropPointcloudByHeight_band _ _ _ _ c1,
          cropPointcloudByHeight_band _ _ _ _ c2⟩
  · intro h0
    unfold onPointcloudWithObstacleAndRaw
    rw [h0]

/-- A sample configuration with the height filter enabled. -/
def sampleConfigHeightFilter : Config :=
  { sampleConfig with use_height_filter := true }

/-- The node state right after construction with `sampleConfigHeightFilter`. -/
def sampleStateHeightFilter : NodeState :=
  PointcloudBasedOccupancyGridMapNode sampleConfigHeightFilter

/-- A sample cycle input whose cloud transforms are unavailable, so that
height cropping fails. -/
def sampleInputNoTf : CycleInput :=
  { sampleInput with tfCloud := fun _ _ => none }

/-- Witness for C9: a concrete cycle whose crop fails returns the state
unchanged and publishes nothing. -/
theorem height_filter_crops_and_aborts_witness :
    onPointcloudWithObstacleAndRaw sampleStateHeightFilter sampleInputNoTf =
      (sampleStateHeightFilter, none) :=
  (height_filter_crops_and_aborts sampleStateHeightFilter sampleInputNoTf
    rfl).2.2 rfl

/-- Claim C10: when obstacle-by-raw filtering is enabled and the common-point
extraction fails, the cycle does not abort: it proceeds with the unfiltered
(height-cropped only) obstacle cloud through build, fuse and publish, and
something is always published on that path. -/
theorem common_extraction_failure_falls_back (s : NodeState)
    (inp : CycleInput) (fo fr : PointCloud2) (rp go so : Pose)
    (hflag : s.config.filter_obstacle_pointcloud_by_raw_pointcloud = true)
    (hfc : filteredClouds s.config inp = some (fo, fr))
    (hext : utils.extractCommonPointCloud fo fr = none)
    (hrp : resolvedPoses s.config inp = some (rp, go, so)) :
    onPointcloudWithObstacleAndRaw s inp = fuseAndPublish s fr fo rp go so ∧
    ((fuseAndPublish s fr fo rp go so).2).isSome = true := by
  have hcc : obstacleCommonCloud s.config fo fr = fo := by
    unfold obstacleCommonCloud
    rw [hflag, hext]
    rfl
  constructor
  · unfold onPointcloudWithObstacleAndRaw
    rw [hfc, hrp]
    show fuseAndPublish s fr (obstacleCommonCloud s.config fo fr) rp go so =
      fuseAndPublish s fr fo rp go so
    rw [hcc]
  · unfold fuseAndPublish
    cases hm : s.config.enable_single_frame_mode <;> rfl

/-- A sample configuration with obstacle-by-raw filtering enabled and
temporal fusion active. -/
def sampleConfigCommonFilter : Config :=
  { sampleConfig with
    filter_obstacle_pointcloud_by_raw_pointcloud := true,
    enable_single_frame_mode := false }

/-- The node state right after construction with `sampleConfigCommonFilter`. -/
def sampleStateCommonFilter : NodeState :=
  PointcloudBasedOccupancyGridMapNode sampleConfigCommonFilter

/-- A sample cycle input whose obstacle and raw clouds share no point, so
that common-point extraction fails. -/
def sampleInputDisjoint : CycleInput :=
  { sampleInput with
    obstacle_msg := [⟨0, 0, 0⟩], raw_msg := [⟨1, 0, 0⟩] }

/-- Witness for C10: a concrete cycle with failing common-point extraction
proceeds with the unfiltered obstacle cloud and publishes. -/
theorem common_extraction_failure_falls_back_witness :
    onPointcloudWithObstacleAndRaw sampleStateCommonFilter sampleInputDisjoint =
      fuseAndPublish sampleStateCommonFilter [⟨1, 0, 0⟩] [⟨0, 0, 0⟩]
        ⟨0, 0, 0⟩ ⟨0, 0, 0⟩ ⟨0, 0, 0⟩ ∧
    ((fuseAndPublish sampleStateCommonFilter [⟨1, 0, 0⟩] [⟨0, 0, 0⟩]
      ⟨0, 0, 0⟩ ⟨0, 0, 0⟩ ⟨0, 0, 0⟩).2).isSome = true :=
  common_extraction_failure_falls_back sampleStateCommonFilter
    sampleInputDisjoint [⟨0, 0, 0⟩] [⟨1, 0, 0⟩]
    ⟨0, 0, 0⟩ ⟨0, 0, 0⟩ ⟨0, 0, 0⟩ rfl rfl (by rfl) rfl

end occupancy_grid_map
